import Mathlib

/-!
Verification of the `show_sysinfo` utility (`sysinfo.py`).

The program gathers local machine identity data (OS, model, serial number,
network interfaces, processor, memory) through OS-specific shell commands,
and displays it in a window: one captioned QR code per network interface
(encoding the interface's MAC address) followed by one QR code for the
machine serial number.

This file is a shallow embedding of that program.  Python strings are
`List Char`; the string methods the program uses (`split`, `splitlines`,
`strip`, `replace`, `join`, `lower`, substring tests) are defined below with
Python's semantics.  Shell execution, JSON decoding (`json.loads`, part of
the Python standard library), `cpuinfo` and `psutil` are modelled by an
explicit environment `Env`; a shell command either yields stdout or raises
`subprocess.CalledProcessError`, which the embedding carries in `Except`.
Every property also reports the list of external commands it executed, so
that statements about command execution (fresh re-runs, no commands on
unknown platforms) can be made.  `pint` unit arithmetic is modelled exactly
over `ℚ`.  QR-code rendering (the `qrcode` library) is abstracted to the
payload the QR code encodes.
-/

/-- Python strings, as their character lists. -/
abbrev Str := List Char

/-- Shorthand turning a Lean string literal into a `Str`. -/
def str (s : String) : Str := s.data

/-- Python `s.split(sep)` for a one-character separator `sep`:
splits at every occurrence, keeping empty pieces; `"".split(sep) = [""]`. -/
def splitChar (sep : Char) : Str → List Str
  | [] => [[]]
  | c :: rest =>
    match splitChar sep rest with
    | [] => [[c]]
    | g :: gs => if c = sep then [] :: g :: gs else (c :: g) :: gs

/-- Python `s.splitlines()` for `\n`-separated text: like splitting on
`'\n'`, except that a trailing newline adds no empty final line and the
empty string has no lines at all. -/
def splitlinesPy (s : Str) : List Str :=
  if s = [] then []
  else
    let parts := splitChar '\n' s
    if s.getLast? = some '\n' then parts.dropLast else parts

/-- Characters Python's `str.strip()` removes. -/
def isPySpace (c : Char) : Bool :=
  c = ' ' || c = '\t' || c = '\n' || c = '\r' || c = '\x0b' || c = '\x0c'

/-- Python `s.strip()`: drop leading and trailing whitespace. -/
def stripStr (s : Str) : Str :=
  ((s.dropWhile isPySpace).reverse.dropWhile isPySpace).reverse

/-- Python `s.replace(old, new)` for one-character `old` and `new`. -/
def replaceChar (old new : Char) (s : Str) : Str :=
  s.map fun c => if c = old then new else c

/-- Python `s.replace(old, "")` for a one-character `old`: remove every
occurrence. -/
def removeChar (old : Char) (s : Str) : Str :=
  s.filter fun c => c ≠ old

/-- Python `s.replace(old, new)` for a multi-character `old`: scan left to
right, replacing non-overlapping occurrences. -/
def replaceSubstr (pat rep : Str) : Str → Str
  | [] => []
  | c :: rest =>
    if h : pat ≠ [] ∧ pat.isPrefixOf (c :: rest) then
      rep ++ replaceSubstr pat rep ((c :: rest).drop pat.length)
    else
      c :: replaceSubstr pat rep rest
termination_by s => s.length
decreasing_by
  · have hp : 0 < pat.length := List.length_pos.mpr h.1
    simp only [List.length_drop, List.length_cons]
    omega
  · simp only [List.length_cons]
    omega

/-- Python `sub in s`: substring containment. -/
def strContains (pat : Str) : Str → Bool
  | [] => decide (pat = [])
  | c :: rest => pat.isPrefixOf (c :: rest) || strContains pat rest

/-- Python `s.lower()`. -/
def lowerStr (s : Str) : Str := s.map Char.toLower

/-- Lookup in a Python dict built by a comprehension that inserted the
pairs in list order: on duplicate keys the last insertion wins. -/
def pyDictLookup (pairs : List (Str × Str)) (k : Str) : Option Str :=
  (pairs.reverse.find? fun p => decide (p.1 = k)).map (·.2)

/-- Python `f"{x}"` for an `Optional[str]` value: `None` prints as
`"None"`. -/
def pyShowOptStr : Option Str → Str
  | none => str "None"
  | some s => s

/-- The `partition` utility of `sysinfo.py`: walk the iterable keeping a
`current` group; when `sentinel` fires, close the group (keeping the firing
item as its last element when `include_boundary` is set, discarding it
otherwise) and start a new one; the still-open group is appended at the
end. -/
def partition (iterable : List α) (sentinel : α → Bool)
    (include_boundary : Bool := false) : List (List α) :=
  let fin := iterable.foldl
    (fun (acc : List (List α) × List α) item =>
      if sentinel item then
        (acc.1 ++ [if include_boundary then acc.2 ++ [item] else acc.2], [])
      else
        (acc.1, acc.2 ++ [item]))
    ([], [])
  fin.1 ++ [fin.2]

/-- `MacAddress.__new__`: normalize a MAC address, replacing every dash
with a colon. -/
def macAddress (s : Str) : Str := replaceChar '-' ':' s

/-- `MacAddress.with_dashes`: replace every colon with a dash. -/
def withDashes (m : Str) : Str := replaceChar ':' '-' m

/-- Python exceptions the embedded code can raise. -/
inductive PyErr where
  /-- `subprocess.CalledProcessError` with the command's exit status,
  raised by `subprocess.check_output` on a nonzero exit. -/
  | calledProcessError (code : Nat)
  /-- `KeyError` from indexing a dict with a missing key. -/
  | keyErr
  /-- `IndexError` from indexing a list out of range. -/
  | indexErr
  /-- `TypeError` (e.g. the `qrcode` library fed `None`). -/
  | typeErr
  /-- `AttributeError` from calling a `str` method on `None`. -/
  | attrErr
  /-- `StopIteration` from `next` on an exhausted generator. -/
  | stopIteration
deriving DecidableEq, Repr

/-- An external command invocation: `run_powershell` passes one script
string to `powershell.exe`, `run_command` passes an argv list. -/
inductive Cmd where
  | powershell (script : String)
  | command (argv : List String)
deriving DecidableEq, Repr

/-- One element of the JSON array produced by
`Get-NetAdapter -Physical | Select Name, InterfaceDescription, MacAddress`,
as decoded by `json.loads`. -/
structure WinAdapter where
  name : Str
  interfaceDescription : Str
  macAddress : Str
deriving DecidableEq, Repr

/-- The `Interface` dataclass: name, description, MAC address and, on
Linux, the logical interface name.  `name` and `logical` may be Python
`None` (`iface.get` misses, or the Windows branch's default). -/
structure Interface where
  name : Option Str
  description : Str
  mac : Str
  logical : Option Str
deriving DecidableEq, Repr

/-- The `SystemInfo` dataclass: it declares no fields at all, only
properties, so an instance carries no state. -/
structure SystemInfo where
deriving DecidableEq, Repr

/-- The world outside the program: the platform name, the behaviour of
external commands, the files and directories read, and the Python-library
calls (`json.loads` at each of its three use sites, `cpuinfo`, `psutil`)
that the repository does not implement itself. -/
structure Env where
  /-- `platform.system()`. -/
  system : String
  /-- `subprocess.check_output`: stdout on success, or the nonzero exit
  status carried by the `CalledProcessError` it raises. -/
  run : Cmd → Except Nat Str
  /-- Contents of `/etc/os-release`. -/
  osRelease : Str
  /-- The names under `/sys/class/net` having a `device` entry
  (`get_physical_interfaces`). -/
  physicalInterfaces : List Str
  /-- `json.loads(·)["Edition"]` on the stdout of the `os` query:
  standard-library JSON decoding, modelled as an oracle. -/
  jsonEdition : Str → Except PyErr (Option Str)
  /-- `json.loads(·)["CsModel"]` on the stdout of the `model` query. -/
  jsonCsModel : Str → Except PyErr (Option Str)
  /-- `json.loads` on the stdout of the `Get-NetAdapter` query, as a list
  of adapter records. -/
  jsonAdapters : Str → Except PyErr (List WinAdapter)
  /-- `cpuinfo.get_cpu_info().get("brand_raw")`. -/
  cpuBrand : Option Str
  /-- `psutil.virtual_memory().total`, in bytes. -/
  totalBytes : Nat

/-- `run_powershell`: run one script through `powershell.exe` via
`subprocess.check_output`; a nonzero exit becomes `CalledProcessError`. -/
def run_powershell (env : Env) (cmd : String) : Except PyErr Str :=
  match env.run (.powershell cmd) with
  | .ok out => .ok out
  | .error code => .error (.calledProcessError code)

/-- `run_command`: run an argv list via `subprocess.check_output`; a
nonzero exit becomes `CalledProcessError`. -/
def run_command (env : Env) (cmd : List String) : Except PyErr Str :=
  match env.run (.command cmd) with
  | .ok out => .ok out
  | .error code => .error (.calledProcessError code)

/-- The PowerShell script of `SystemInfo.os`, after the source's
strip-and-join of its multiline literal. -/
def osWindowsScript : String :=
  "$edition = @\x7blabel=\"Edition\";expression=\x7b$_.OsName.Substring(10)\x7d\x7d ; Get-ComputerInfo | Select $edition | ConvertTo-Json"

/-- The PowerShell script of `SystemInfo.model`. -/
def modelWindowsScript : String :=
  "Get-ComputerInfo | Select CsModel | ConvertTo-Json"

/-- The PowerShell script of `SystemInfo.serial`. -/
def serialWindowsScript : String :=
  "(Get-WMIObject -Class WIN32_SystemEnclosure -ComputerName $env:ComputerName).SerialNumber | Select -First 1"

/-- The PowerShell script of `SystemInfo.interfaces`. -/
def adaptersScript : String :=
  "Get-NetAdapter -Physical | Select Name, InterfaceDescription, MacAddress | ConvertTo-Json"

/-- The dict comprehension of the Linux branch of `SystemInfo.os`:
`{line.split("=")[0]: line.split("=")[1].replace('"', "") for line in ...}`.
A line without `=` raises `IndexError`. -/
def osReleasePairs (content : Str) : Except PyErr (List (Str × Str)) :=
  (splitlinesPy content).mapM fun line =>
    let parts := splitChar '=' line
    match parts.get? 1 with
    | none => .error .indexErr
    | some v => .ok (parts.headD [], removeChar '"' v)

/-- `SystemInfo.os`, returning the value together with the external
commands executed. -/
def osProp (env : Env) : Except PyErr (Option Str) × List Cmd :=
  if env.system = "Windows" then
    match run_powershell env osWindowsScript with
    | .error e => (.error e, [.powershell osWindowsScript])
    | .ok out =>
      match env.jsonEdition out with
      | .error e => (.error e, [.powershell osWindowsScript])
      | .ok edition => (.ok edition, [.powershell osWindowsScript])
  else if env.system = "Linux" then
    match osReleasePairs env.osRelease with
    | .error e => (.error e, [])
    | .ok releaseInfo =>
      match pyDictLookup releaseInfo (str "PRETTY_NAME") with
      | none => (.error .keyErr, [])
      | some pretty => (.ok (some pretty), [])
  else
    (.ok none, [])

/-- The dict comprehension of the Linux branch of `SystemInfo.model`:
`{line.split(":")[0].strip(): line.split(":")[1].strip() for line in lines if line}`.
A non-empty line without `:` raises `IndexError`. -/
def dmiPairs (lines : List Str) : Except PyErr (List (Str × Str)) :=
  (lines.filter fun l => l ≠ []).mapM fun line =>
    let parts := splitChar ':' line
    match parts.get? 1 with
    | none => .error .indexErr
    | some v => .ok (stripStr (parts.headD []), stripStr v)

/-- `SystemInfo.model`, returning the value together with the external
commands executed. -/
def modelProp (env : Env) : Except PyErr (Option Str) × List Cmd :=
  if env.system = "Windows" then
    match run_powershell env modelWindowsScript with
    | .error e => (.error e, [.powershell modelWindowsScript])
    | .ok out =>
      match env.jsonCsModel out with
      | .error e => (.error e, [.powershell modelWindowsScript])
      | .ok m => (.ok m, [.powershell modelWindowsScript])
  else if env.system = "Linux" then
    let dmiCmd : List String := ["dmidecode", "-t1"]
    match run_command env dmiCmd with
    | .error e => (.error e, [.command dmiCmd])
    | .ok out =>
      let proc := splitlinesPy out
      let lines :=
        (partition proc fun line =>
          strContains (str "System Information") line).getLast?.getD []
      match dmiPairs lines with
      | .error e => (.error e, [.command dmiCmd])
      | .ok d =>
        match pyDictLookup d (str "Version") with
        | none => (.error .keyErr, [.command dmiCmd])
        | some v =>
          (.ok (if v = [] then none else some v), [.command dmiCmd])
  else
    (.ok none, [])

/-- `SystemInfo.serial`, returning the value together with the external
commands executed. -/
def serialProp (env : Env) : Except PyErr (Option Str) × List Cmd :=
  if env.system = "Windows" then
    match run_powershell env serialWindowsScript with
    | .error e => (.error e, [.powershell serialWindowsScript])
    | .ok out => (.ok (some (stripStr out)), [.powershell serialWindowsScript])
  else if env.system = "Linux" then
    let dmiCmd : List String := ["dmidecode", "-t", "system"]
    match run_command env dmiCmd with
    | .error e => (.error e, [.command dmiCmd])
    | .ok result =>
      match (splitlinesPy result).find? fun line =>
          strContains (str "serial") (lowerStr line) with
      | none => (.error .stopIteration, [.command dmiCmd])
      | some serialLine =>
        (.ok (some (stripStr ((splitChar ':' serialLine).getLast?.getD []))),
          [.command dmiCmd])
  else
    (.ok none, [])

/-- The per-device dict of the Linux branch of `SystemInfo.interfaces`:
`{line.split(":")[0].strip(): ":".join(line.split(":")[1:]).strip() for line in dev}`. -/
def lshwDevPairs (dev : List Str) : List (Str × Str) :=
  dev.map fun line =>
    let parts := splitChar ':' line
    (stripStr (parts.headD []), stripStr (List.intercalate (str ":") parts.tail))

/-- Construction of one `Interface` in the Linux branch of
`SystemInfo.interfaces`, evaluating the constructor arguments in Python's
left-to-right order: a missing `description` or `serial` key means calling
a `str` method on `None`, an `AttributeError`. -/
def lshwInterface (d : List (Str × Str)) : Except PyErr Interface :=
  let name := pyDictLookup d (str "product")
  match pyDictLookup d (str "description") with
  | none => .error .attrErr
  | some desc =>
    match pyDictLookup d (str "serial") with
    | none => .error .attrErr
    | some serialField =>
      .ok ⟨name, replaceSubstr (str " interface") [] desc,
        macAddress serialField, pyDictLookup d (str "logical name")⟩

/-- `SystemInfo.interfaces`, returning the value together with the
external commands executed. -/
def interfacesProp (env : Env) : Except PyErr (List Interface) × List Cmd :=
  if env.system = "Windows" then
    match run_powershell env adaptersScript with
    | .error e => (.error e, [.powershell adaptersScript])
    | .ok out =>
      match env.jsonAdapters out with
      | .error e => (.error e, [.powershell adaptersScript])
      | .ok data =>
        (.ok (data.map fun iface =>
          ⟨some iface.name, iface.interfaceDescription,
            macAddress iface.macAddress, none⟩), [.powershell adaptersScript])
  else if env.system = "Linux" then
    let lshwCmd : List String := ["lshw", "-class", "network"]
    match run_command env lshwCmd with
    | .error e => (.error e, [.command lshwCmd])
    | .ok result =>
      let devs := partition (splitlinesPy result) fun line =>
        strContains (str "*-network") line
      let devs := devs.filter fun dev => dev ≠ []
      let dicts := devs.map lshwDevPairs
      let kept := dicts.filter fun d =>
        match pyDictLookup d (str "logical name") with
        | some l => decide (l ∈ env.physicalInterfaces)
        | none => false
      match kept.mapM lshwInterface with
      | .error e => (.error e, [.command lshwCmd])
      | .ok interfaces => (.ok interfaces, [.command lshwCmd])
  else
    (.ok [], [])

/-- `SystemInfo.processor`: `get_cpu_info().get("brand_raw")`, no external
command. -/
def processorProp (env : Env) : Except PyErr (Option Str) × List Cmd :=
  (.ok env.cpuBrand, [])

/-- A unit of pint's default registry, as its exact scale factor to the
base unit (here: the byte). -/
structure UnitDef where
  toBase : ℚ
deriving DecidableEq, Repr

/-- `units.bytes`: the base unit, scale 1. -/
def byteUnit : UnitDef := ⟨1⟩

/-- The SI prefix `giga-` of pint's default registry: `1e9 = 10^9`
(decimal), not `2^30`. -/
def gigaFactor : ℚ := 10 ^ 9

/-- `units.gigabytes`: `giga-` applied to the byte. -/
def gigabyteUnit : UnitDef := ⟨gigaFactor * byteUnit.toBase⟩

/-- A pint `Quantity`: a magnitude and a unit.  pint's float arithmetic is
modelled exactly over `ℚ`. -/
structure Quantity where
  magnitude : ℚ
  unit : UnitDef
deriving DecidableEq, Repr

/-- `Quantity.to`: convert to another unit through the base unit. -/
def Quantity.to (q : Quantity) (u : UnitDef) : Quantity :=
  ⟨q.magnitude * q.unit.toBase / u.toBase, u⟩

/-- `SystemInfo.memory`: `units.bytes * psutil.virtual_memory().total`,
converted `.to(units.gigabytes)`. -/
def memoryProp (totalBytes : Nat) : Quantity :=
  (Quantity.mk totalBytes byteUnit).to gigabyteUnit

/-- Python `int()` on a rational number: truncation toward zero. -/
def pyInt (q : ℚ) : ℤ := q.num.tdiv q.den

/-- The image produced by `make_qr`, abstracted to the payload the QR code
encodes (the `qrcode` and PIL rendering is outside the repository). -/
structure QRImage where
  payload : Str
deriving DecidableEq, Repr

/-- `make_qr(data)` for the program's `Optional[str]` data: a QR image
encoding the data; feeding `None` raises inside the `qrcode` library. -/
def make_qr : Option Str → Except PyErr QRImage
  | none => .error .typeErr
  | some s => .ok ⟨s⟩

/-- A `QCaptionedImage`: a caption label over an image. -/
structure CaptionedQR where
  caption : Str
  image : QRImage
deriving DecidableEq, Repr

/-- The `MainWindow` as built: its title and its horizontal layout of
captioned QR widgets, in the order `layout.addWidget` received them. -/
structure WindowModel where
  title : Str
  widgets : List CaptionedQR
deriving DecidableEq, Repr

/-- The caption of an interface widget:
`f"{interface.name} — {interface.description}{logical_name}"` where
`logical_name` is `f" ({interface.logical})"` when the logical name is not
`None` and `""` otherwise. -/
def ifaceCaption (i : Interface) : Str :=
  pyShowOptStr i.name ++ str " — " ++ i.description ++
    (match i.logical with
     | none => []
     | some l => str " (" ++ l ++ str ")")

/-- The window title: the entries of
`(info.model, info.os, info.processor, f"{int(info.memory.magnitude)} GB RAM")`
that are not `None`, joined with `"   —   "`. -/
def windowTitle (model os_ processor : Option Str) (totalBytes : Nat) : Str :=
  let memStr :=
    str (toString (pyInt (memoryProp totalBytes).magnitude)) ++ str " GB RAM"
  List.intercalate (str "   —   ")
    (List.filterMap id [model, os_, processor, some memStr])

/-- `MainWindow.__init__`: build the window from a fresh `SystemInfo`,
accessing `model`, `os`, `processor`, `memory` for the title, then
`interfaces` (one captioned QR per interface, encoding its MAC), then
`serial` twice (once for its QR, once for its caption).  The result pairs
the constructed window (or the first exception raised) with every external
command executed, in order. -/
def mainWindow (env : Env) : Except PyErr WindowModel × List Cmd :=
  let (mRes, t1) := modelProp env
  match mRes with
  | .error e => (.error e, t1)
  | .ok model =>
    let (oRes, t2) := osProp env
    match oRes with
    | .error e => (.error e, t1 ++ t2)
    | .ok os_ =>
      let title := windowTitle model os_ env.cpuBrand env.totalBytes
      let (iRes, t3) := interfacesProp env
      match iRes with
      | .error e => (.error e, t1 ++ t2 ++ t3)
      | .ok interfaces =>
        let widgets := interfaces.map fun interface =>
          CaptionedQR.mk (ifaceCaption interface) (QRImage.mk interface.mac)
        let (sRes1, t4) := serialProp env
        match sRes1 with
        | .error e => (.error e, t1 ++ t2 ++ t3 ++ t4)
        | .ok serial1 =>
          match make_qr serial1 with
          | .error e => (.error e, t1 ++ t2 ++ t3 ++ t4)
          | .ok image =>
            let (sRes2, t5) := serialProp env
            match sRes2 with
            | .error e => (.error e, t1 ++ t2 ++ t3 ++ t4 ++ t5)
            | .ok serial2 =>
              (.ok ⟨title, widgets ++
                  [⟨str "Serial Number (" ++ pyShowOptStr serial2 ++ str ")",
                    image⟩]⟩,
                t1 ++ t2 ++ t3 ++ t4 ++ t5)

/-- The outcome of `main`. -/
inductive MainResult where
  /-- The root check fired: the message printed and the `sys.exit` status. -/
  | rootError (msg : String) (code : Nat)
  /-- `MainWindow.__init__` raised. -/
  | crashed (e : PyErr)
  /-- The window was built and shown. -/
  | shown (w : WindowModel)
deriving DecidableEq, Repr

/-- Whether a `MainResult` is the root-check early exit. -/
def MainResult.isRootError : MainResult → Bool
  | .rootError _ _ => true
  | _ => false

/-- `main`: on Linux with a nonzero effective uid, print
`"You must run this as root!"` and exit with status 1 before anything else;
otherwise construct the UI.  The trace lists every external command run. -/
def pyMain (env : Env) (euid : Nat) : MainResult × List Cmd :=
  if env.system = "Linux" ∧ euid ≠ 0 then
    (.rootError "You must run this as root!" 1, [])
  else
    match mainWindow env with
    | (.error e, t) => (.crashed e, t)
    | (.ok w, t) => (.shown w, t)

/-- Two consecutive accesses of one `SystemInfo` property on the same
instance: each access re-evaluates the property, so each appends the
property's external commands to the trace; the instance itself is returned
unchanged (it has no fields to change). -/
def accessTwice (info : SystemInfo) (p : Env → Except PyErr α × List Cmd)
    (env : Env) (t : List Cmd) :
    SystemInfo × (Except PyErr α × Except PyErr α) × List Cmd :=
  let r1 := p env
  let r2 := p env
  (info, (r1.1, r2.1), t ++ r1.2 ++ r2.2)

/-- Recursive characterization of the `partition` loop: `cur` is the group
currently being collected. -/
def partGo (p : α → Bool) (ib : Bool) : List α → List α → List (List α)
  | cur, [] => [cur]
  | cur, x :: xs =>
    if p x then (if ib then cur ++ [x] else cur) :: partGo p ib [] xs
    else partGo p ib (cur ++ [x]) xs

theorem partition_foldl_eq (p : α → Bool) (ib : Bool) (xs : List α) :
    ∀ P C, ((xs.foldl
      (fun (acc : List (List α) × List α) item =>
        if p item then (acc.1 ++ [if ib then acc.2 ++ [item] else acc.2], [])
        else (acc.1, acc.2 ++ [item]))
      (P, C)).1 ++ [(xs.foldl
      (fun (acc : List (List α) × List α) item =>
        if p item then (acc.1 ++ [if ib then acc.2 ++ [item] else acc.2], [])
        else (acc.1, acc.2 ++ [item]))
      (P, C)).2]) = P ++ partGo p ib C xs := by
  induction xs with
  | nil => intro P C; simp [partGo]
  | cons x xs ih =>
    intro P C
    by_cases hx : p x = true
    · simp only [List.foldl_cons, partGo, hx, if_true]
      rw [ih]
      simp
    · simp only [List.foldl_cons, partGo, hx, if_false]
      rw [ih]
      simp [Bool.not_eq_true] at hx
      simp [hx]

theorem partition_eq_partGo (p : α → Bool) (ib : Bool) (xs : List α) :
    partition xs p ib = partGo p ib [] xs := by
  have h := partition_foldl_eq p ib xs [] []
  simpa [partition] using h

theorem partGo_length (p : α → Bool) (ib : Bool) (xs : List α) :
    ∀ cur, (partGo p ib cur xs).length = xs.countP p + 1 := by
  induction xs with
  | nil => intro cur; simp [partGo, List.countP_nil]
  | cons x xs ih =>
    intro cur
    by_cases hx : p x = true
    · simp [partGo, hx, List.countP_cons, ih]
    · simp only [Bool.not_eq_true] at hx
      simp [partGo, hx, List.countP_cons, ih]

theorem partGo_ne_nil (p : α → Bool) (ib : Bool) (xs : List α) (cur : List α) :
    partGo p ib cur xs ≠ [] := by
  intro h
  have := partGo_length p ib xs cur
  rw [h] at this
  simp at this

theorem partGo_join_false (p : α → Bool) (xs : List α) :
    ∀ cur, (partGo p false cur xs).flatten = cur ++ xs.filter (fun x => !(p x)) := by
  induction xs with
  | nil => intro cur; simp [partGo]
  | cons x xs ih =>
    intro cur
    by_cases hx : p x = true
    · simp [partGo, hx, List.filter_cons, ih]
    · simp only [Bool.not_eq_true] at hx
      simp [partGo, hx, List.filter_cons, ih]

theorem partGo_join_true (p : α → Bool) (xs : List α) :
    ∀ cur, (partGo p true cur xs).flatten = cur ++ xs := by
  induction xs with
  | nil => intro cur; simp [partGo]
  | cons x xs ih =>
    intro cur
    by_cases hx : p x = true
    · simp [partGo, hx, ih]
    · simp only [Bool.not_eq_true] at hx
      simp [partGo, hx, ih]

theorem partGo_false_groups (p : α → Bool) (xs : List α) :
    ∀ cur, (∀ y ∈ cur, p y = false) →
      ∀ g ∈ partGo p false cur xs, ∀ y ∈ g, p y = false := by
  induction xs with
  | nil =>
    intro cur hcur g hg
    simp [partGo] at hg
    subst hg
    exact hcur
  | cons x xs ih =>
    intro cur hcur g hg
    by_cases hx : p x = true
    · simp only [partGo, hx, if_true] at hg
      rcases List.mem_cons.mp hg with h | h
      · subst h; exact hcur
      · exact ih [] (by simp) g h
    · simp only [Bool.not_eq_true] at hx
      simp only [partGo, hx, Bool.false_eq_true, if_false] at hg
      refine ih (cur ++ [x]) ?_ g hg
      intro y hy
      rcases List.mem_append.mp hy with h | h
      · exact hcur y h
      · simp at h; subst h; exact hx

theorem partGo_true_boundary (p : α → Bool) (xs : List α) :
    ∀ cur, ∀ g ∈ (partGo p true cur xs).dropLast,
      ∃ y, g.getLast? = some y ∧ p y = true := by
  induction xs with
  | nil => intro cur g hg; simp [partGo] at hg
  | cons x xs ih =>
    intro cur g hg
    by_cases hx : p x = true
    · simp only [partGo, hx, if_true] at hg
      rw [List.dropLast_cons_of_ne_nil (partGo_ne_nil p true xs [])] at hg
      rcases List.mem_cons.mp hg with h | h
      · subst h
        exact ⟨x, List.getLast?_concat _, hx⟩
      · exact ih [] g h
    · simp only [Bool.not_eq_true] at hx
      simp only [partGo, hx, Bool.false_eq_true, if_false] at hg
      exact ih (cur ++ [x]) g hg

theorem macAddress_no_dash (s : Str) : '-' ∉ macAddress s := by
  intro hmem
  obtain ⟨c, _, heq⟩ := List.mem_map.mp hmem
  by_cases h : c = '-'
  · rw [if_pos h] at heq
    exact absurd heq (by decide)
  · rw [if_neg h] at heq
    exact h heq

theorem withDashes_no_colon (m : Str) : ':' ∉ withDashes m := by
  intro hmem
  obtain ⟨c, _, heq⟩ := List.mem_map.mp hmem
  by_cases h : c = ':'
  · rw [if_pos h] at heq
    exact absurd heq (by decide)
  · rw [if_neg h] at heq
    exact h heq

theorem macAddress_idem (s : Str) : macAddress (macAddress s) = macAddress s := by
  induction s with
  | nil => rfl
  | cons c cs ih =>
    simp only [macAddress, replaceChar, List.map_cons] at ih ⊢
    rw [ih]
    by_cases h : c = '-' <;> simp [h]

theorem macAddress_withDashes_cancel (s : Str) :
    macAddress (withDashes (macAddress s)) = macAddress s := by
  induction s with
  | nil => rfl
  | cons c cs ih =>
    simp only [macAddress, withDashes, replaceChar, List.map_cons] at ih ⊢
    rw [ih]
    by_cases h : c = '-'
    · simp [h]
    · by_cases h2 : c = ':' <;> simp [h, h2]

/-- C2: `partition` with `include_boundary=False` splits the list at every
element satisfying the sentinel, discarding that element: the groups
contain exactly the non-sentinel elements in order, every group element
fails the sentinel, and there are exactly one plus (number of sentinel
elements) groups — so the result is never empty and the empty list yields
`[[]]`.  With `include_boundary=True` each splitting element is instead
kept as the last element of the group it terminates, so the groups
concatenate back to the input. -/
theorem c2_partition_spec (xs : List α) (p : α → Bool) :
    (partition xs p false).length = xs.countP p + 1 ∧
    (partition xs p false).flatten = xs.filter (fun x => !(p x)) ∧
    (∀ g ∈ partition xs p false, ∀ y ∈ g, p y = false) ∧
    partition xs p false ≠ [] ∧
    partition ([] : List α) p false = [[]] ∧
    (partition xs p true).flatten = xs ∧
    (partition xs p true).length = xs.countP p + 1 ∧
    (∀ g ∈ (partition xs p true).dropLast,
      ∃ y, g.getLast? = some y ∧ p y = true) := by
  rw [partition_eq_partGo p false xs, partition_eq_partGo p true xs,
    partition_eq_partGo p false ([] : List α)]
  refine ⟨partGo_length p false xs [], ?_, ?_, partGo_ne_nil p false xs [],
    by simp [partGo], ?_, partGo_length p true xs [],
    partGo_true_boundary p xs []⟩
  · simpa using partGo_join_false p xs []
  · exact partGo_false_groups p xs [] (by simp)
  · simpa using partGo_join_true p xs []

/-- C3: `MacAddress` construction replaces every dash with a colon, so a
`MacAddress` never contains a dash; `with_dashes` replaces every colon
with a dash, so its result never contains a colon; construction is
idempotent, and rebuilding a `MacAddress` from its dashed form gives the
original back. -/
theorem c3_macAddress_normalization (s m : Str) :
    '-' ∉ macAddress s ∧
    ':' ∉ withDashes m ∧
    macAddress (macAddress s) = macAddress s ∧
    macAddress (withDashes (macAddress s)) = macAddress s :=
  ⟨macAddress_no_dash s, withDashes_no_colon m, macAddress_idem s,
    macAddress_withDashes_cancel s⟩

theorem mapM_ok_mem {β : Type _} (f : α → Except PyErr β) :
    ∀ (xs : List α) (l : List β), xs.mapM f = .ok l →
      ∀ y ∈ l, ∃ x ∈ xs, f x = .ok y := by
  intro xs
  induction xs with
  | nil =>
    intro l h y hy
    simp only [List.mapM_nil, pure, Except.pure, Except.ok.injEq] at h
    subst h
    simp at hy
  | cons x xs ih =>
    intro l h y hy
    rw [List.mapM_cons] at h
    cases hfx : f x with
    | error e =>
      rw [hfx] at h
      simp [Bind.bind, Except.bind] at h
    | ok b =>
      rw [hfx] at h
      cases hxs : xs.mapM f with
      | error e =>
        rw [hxs] at h
        simp [Bind.bind, Except.bind] at h
      | ok bs =>
        rw [hxs] at h
        simp only [Bind.bind, Except.bind, pure, Except.pure,
          Except.ok.injEq] at h
        subst h
        rcases List.mem_cons.mp hy with hyb | hybs
        · exact ⟨x, List.mem_cons_self x xs, by rw [hfx, hyb]⟩
        · obtain ⟨x', hx', hfx'⟩ := ih bs hxs y hybs
          exact ⟨x', List.mem_cons_of_mem x hx', hfx'⟩

theorem lshwInterface_mac (d : List (Str × Str)) (i : Interface)
    (h : lshwInterface d = .ok i) : ∃ r, i.mac = macAddress r := by
  unfold lshwInterface at h
  cases h1 : pyDictLookup d (str "description") with
  | none => rw [h1] at h; exact absurd h (by simp)
  | some desc =>
    rw [h1] at h
    cases h2 : pyDictLookup d (str "serial") with
    | none => rw [h2] at h; exact absurd h (by simp)
    | some serialField =>
      rw [h2] at h
      simp only [Except.ok.injEq] at h
      exact ⟨serialField, by rw [← h]⟩

theorem interfaces_mac_normalized (env : Env) (l : List Interface)
    (h : (interfacesProp env).1 = .ok l) :
    ∀ i ∈ l, ∃ r, i.mac = macAddress r := by
  unfold interfacesProp at h
  by_cases hw : env.system = "Windows"
  · rw [if_pos hw] at h
    cases hrun : run_powershell env adaptersScript with
    | error e => rw [hrun] at h; exact absurd h (by simp)
    | ok out =>
      rw [hrun] at h
      dsimp only at h
      cases hjson : env.jsonAdapters out with
      | error e => rw [hjson] at h; exact absurd h (by simp)
      | ok data =>
        rw [hjson] at h
        simp only [Except.ok.injEq] at h
        subst h
        intro i hi
        obtain ⟨a, _, ha⟩ := List.mem_map.mp hi
        exact ⟨a.macAddress, by rw [← ha]⟩
  · rw [if_neg hw] at h
    by_cases hl : env.system = "Linux"
    · rw [if_pos hl] at h
      dsimp only at h
      cases hrun : run_command env ["lshw", "-class", "network"] with
      | error e => rw [hrun] at h; exact absurd h (by simp)
      | ok result =>
        rw [hrun] at h
        dsimp only at h
        cases hmap : (((partition (splitlinesPy result) fun line =>
            strContains (str "*-network") line).filter
              (fun dev => dev ≠ [])).map lshwDevPairs).filter
            (fun d => match pyDictLookup d (str "logical name") with
              | some l => decide (l ∈ env.physicalInterfaces)
              | none => false) |>.mapM lshwInterface with
        | error e => rw [hmap] at h; exact absurd h (by simp)
        | ok interfaces =>
          rw [hmap] at h
          simp only [Except.ok.injEq] at h
          subst h
          intro i hi
          obtain ⟨d, _, hd⟩ := mapM_ok_mem lshwInterface _ interfaces hmap i hi
          exact lshwInterface_mac d i hd
    · rw [if_neg hl] at h
      simp only [Except.ok.injEq] at h
      subst h
      intro i hi
      simp at hi

/-- C1: in every run in which the main window gets built, its horizontal
layout holds exactly one captioned QR widget per interface returned by
`SystemInfo.interfaces`, in order, each QR encoding that interface's
colon-normalized MAC address, followed by exactly one captioned QR widget
encoding the machine serial number — interfaces first, serial last. -/
theorem c1_main_window_widgets (env : Env) (w : WindowModel) (t : List Cmd)
    (h : mainWindow env = (.ok w, t)) :
    ∃ interfaces s,
      (interfacesProp env).1 = .ok interfaces ∧
      (serialProp env).1 = .ok (some s) ∧
      w.widgets = (interfaces.map fun i =>
          CaptionedQR.mk (ifaceCaption i) (QRImage.mk i.mac)) ++
        [CaptionedQR.mk (str "Serial Number (" ++ s ++ str ")")
          (QRImage.mk s)] ∧
      w.widgets.length = interfaces.length + 1 ∧
      ∀ i ∈ interfaces, '-' ∉ i.mac := by
  unfold mainWindow at h
  rcases hmp : modelProp env with ⟨mRes, t1⟩
  rw [hmp] at h
  dsimp only at h
  cases mRes with
  | error e => simp at h
  | ok model =>
  rcases hop : osProp env with ⟨oRes, t2⟩
  rw [hop] at h
  dsimp only at h
  cases oRes with
  | error e => simp at h
  | ok os_ =>
  rcases hip : interfacesProp env with ⟨iRes, t3⟩
  rw [hip] at h
  dsimp only at h
  cases iRes with
  | error e => simp at h
  | ok interfaces =>
  rcases hsp : serialProp env with ⟨sRes, t4⟩
  rw [hsp] at h
  dsimp only at h
  cases sRes with
  | error e => simp at h
  | ok serial1 =>
  cases serial1 with
  | none => simp [make_qr] at h
  | some s =>
    simp only [make_qr] at h
    simp only [Prod.mk.injEq, Except.ok.injEq] at h
    obtain ⟨hw, -⟩ := h
    subst hw
    refine ⟨interfaces, s, rfl, rfl, rfl, by simp, ?_⟩
    intro i hi
    obtain ⟨r, hr⟩ :=
      interfaces_mac_normalized env interfaces (by rw [hip]) i hi
    rw [hr]
    exact macAddress_no_dash r

/-- A concrete run for the witnesses: a Windows machine whose external
commands all succeed. -/
def witnessEnv : Env where
  system := "Windows"
  run := fun _ => .ok (str "out")
  osRelease := []
  physicalInterfaces := []
  jsonEdition := fun _ => .ok (some (str "Windows 10 Pro"))
  jsonCsModel := fun _ => .ok (some (str "ThinkPad X1"))
  jsonAdapters := fun _ =>
    .ok [⟨str "Ethernet", str "Intel I219-LM", str "AA-BB-CC-11-22-33"⟩]
  cpuBrand := some (str "Intel Core i7")
  totalBytes := 8 * 10 ^ 9

theorem c1_main_window_widgets_witness :
    ∃ interfaces s,
      (interfacesProp witnessEnv).1 = .ok interfaces ∧
      (serialProp witnessEnv).1 = .ok (some s) ∧
      (WindowModel.mk
        (windowTitle (some (str "ThinkPad X1")) (some (str "Windows 10 Pro"))
          (some (str "Intel Core i7")) (8 * 10 ^ 9))
        [CaptionedQR.mk (str "Ethernet — Intel I219-LM")
          (QRImage.mk (str "AA:BB:CC:11:22:33")),
         CaptionedQR.mk (str "Serial Number (out)")
          (QRImage.mk (str "out"))]).widgets =
        (interfaces.map fun i =>
          CaptionedQR.mk (ifaceCaption i) (QRImage.mk i.mac)) ++
        [CaptionedQR.mk (str "Serial Number (" ++ s ++ str ")")
          (QRImage.mk s)] ∧
      (WindowModel.mk
        (windowTitle (some (str "ThinkPad X1")) (some (str "Windows 10 Pro"))
          (some (str "Intel Core i7")) (8 * 10 ^ 9))
        [CaptionedQR.mk (str "Ethernet — Intel I219-LM")
          (QRImage.mk (str "AA:BB:CC:11:22:33")),
         CaptionedQR.mk (str "Serial Number (out)")
          (QRImage.mk (str "out"))]).widgets.length = interfaces.length + 1 ∧
      ∀ i ∈ interfaces, '-' ∉ i.mac :=
  c1_main_window_widgets witnessEnv
    (WindowModel.mk
      (windowTitle (some (str "ThinkPad X1")) (some (str "Windows 10 Pro"))
        (some (str "Intel Core i7")) (8 * 10 ^ 9))
      [CaptionedQR.mk (str "Ethernet — Intel I219-LM")
        (QRImage.mk (str "AA:BB:CC:11:22:33")),
       CaptionedQR.mk (str "Serial Number (out)")
        (QRImage.mk (str "out"))])
    [.powershell modelWindowsScript, .powershell osWindowsScript,
     .powershell adaptersScript, .powershell serialWindowsScript,
     .powershell serialWindowsScript]
    (by rfl)

/-- C4: whenever the shell command underlying a `SystemInfo` property
exits nonzero, the `CalledProcessError` raised by
`subprocess.check_output` propagates unchanged out of the property — no
property catches it or substitutes a default value. -/
theorem c4_command_failure_propagates (envW envL : Env) (cW cL : Nat)
    (hW : envW.system = "Windows") (hL : envL.system = "Linux")
    (h1 : envW.run (.powershell osWindowsScript) = .error cW)
    (h2 : envW.run (.powershell modelWindowsScript) = .error cW)
    (h3 : envW.run (.powershell serialWindowsScript) = .error cW)
    (h4 : envW.run (.powershell adaptersScript) = .error cW)
    (h5 : envL.run (.command ["dmidecode", "-t1"]) = .error cL)
    (h6 : envL.run (.command ["dmidecode", "-t", "system"]) = .error cL)
    (h7 : envL.run (.command ["lshw", "-class", "network"]) = .error cL) :
    (osProp envW).1 = .error (.calledProcessError cW) ∧
    (modelProp envW).1 = .error (.calledProcessError cW) ∧
    (modelProp envL).1 = .error (.calledProcessError cL) ∧
    (serialProp envW).1 = .error (.calledProcessError cW) ∧
    (serialProp envL).1 = .error (.calledProcessError cL) ∧
    (interfacesProp envW).1 = .error (.calledProcessError cW) ∧
    (interfacesProp envL).1 = .error (.calledProcessError cL) := by
  have hLW : ¬ envL.system = "Windows" := by rw [hL]; decide
  refine ⟨?_, ?_, ?_, ?_, ?_, ?_, ?_⟩
  · unfold osProp run_powershell
    rw [if_pos hW, h1]
  · unfold modelProp run_powershell
    rw [if_pos hW, h2]
  · unfold modelProp run_command
    rw [if_neg hLW, if_pos hL]
    dsimp only
    rw [h5]
  · unfold serialProp run_powershell
    rw [if_pos hW, h3]
  · unfold serialProp run_command
    rw [if_neg hLW, if_pos hL]
    dsimp only
    rw [h6]
  · unfold interfacesProp run_powershell
    rw [if_pos hW, h4]
  · unfold interfacesProp run_command
    rw [if_neg hLW, if_pos hL]
    dsimp only
    rw [h7]

/-- The witness environments where every command fails with exit status
3 (Windows) or 5 (Linux). -/
def failEnvW : Env := { witnessEnv with run := fun _ => .error 3 }

/-- See `failEnvW`. -/
def failEnvL : Env :=
  { witnessEnv with system := "Linux", run := fun _ => .error 5 }

theorem c4_command_failure_propagates_witness :
    (osProp failEnvW).1 = .error (.calledProcessError 3) ∧
    (modelProp failEnvW).1 = .error (.calledProcessError 3) ∧
    (modelProp failEnvL).1 = .error (.calledProcessError 5) ∧
    (serialProp failEnvW).1 = .error (.calledProcessError 3) ∧
    (serialProp failEnvL).1 = .error (.calledProcessError 5) ∧
    (interfacesProp failEnvW).1 = .error (.calledProcessError 3) ∧
    (interfacesProp failEnvL).1 = .error (.calledProcessError 5) :=
  c4_command_failure_propagates failEnvW failEnvL 3 5 rfl rfl
    rfl rfl rfl rfl rfl rfl rfl

/-- C5: `SystemInfo.memory` converts the byte total reported by the OS to
decimal gigabytes: the magnitude is exactly `total / 10^9` (the `giga-`
prefix of pint's default registry is `10^9`, not the binary `2^30`), for
every byte count. -/
theorem c5_memory_decimal_gigabytes (n : Nat) :
    (memoryProp n).magnitude = (n : ℚ) / 10 ^ 9 ∧
    (memoryProp n).unit = gigabyteUnit ∧
    gigabyteUnit.toBase = 10 ^ 9 ∧
    (memoryProp (10 ^ 9)).magnitude = 1 ∧
    (memoryProp (2 ^ 30)).magnitude ≠ 1 := by
  refine ⟨?_, rfl, ?_, ?_, ?_⟩
  · unfold memoryProp Quantity.to gigabyteUnit byteUnit gigaFactor
    norm_num
  · unfold gigabyteUnit byteUnit gigaFactor
    norm_num
  · unfold memoryProp Quantity.to gigabyteUnit byteUnit gigaFactor
    norm_num
  · unfold memoryProp Quantity.to gigabyteUnit byteUnit gigaFactor
    norm_num

/-- C9: on a platform that is neither Windows nor Linux, `os`, `model`
and `serial` return `None`, `interfaces` returns the empty list, and none
of the four executes any external command. -/
theorem c9_unknown_platform (env : Env)
    (hW : env.system ≠ "Windows") (hL : env.system ≠ "Linux") :
    osProp env = (.ok none, []) ∧
    modelProp env = (.ok none, []) ∧
    serialProp env = (.ok none, []) ∧
    interfacesProp env = (.ok [], []) := by
  unfold osProp modelProp serialProp interfacesProp
  rw [if_neg hW, if_neg hL, if_neg hW, if_neg hL, if_neg hW, if_neg hL,
    if_neg hW, if_neg hL]
  exact ⟨rfl, rfl, rfl, rfl⟩

/-- The witness environment of an unrecognized platform. -/
def darwinEnv : Env := { witnessEnv with system := "Darwin" }

theorem c9_unknown_platform_witness :
    osProp darwinEnv = (.ok none, []) ∧
    modelProp darwinEnv = (.ok none, []) ∧
    serialProp darwinEnv = (.ok none, []) ∧
    interfacesProp darwinEnv = (.ok [], []) :=
  c9_unknown_platform darwinEnv (by decide) (by decide)

/-- C8: on Linux with a nonzero effective uid, `main` prints
`"You must run this as root!"` and exits with status 1, running no
external command and building no window; on every other platform the uid
is never consulted and the UI is constructed unconditionally. -/
theorem c8_linux_root_check (env env2 : Env) (euid euid2 : Nat)
    (hL : env.system = "Linux") (h0 : euid ≠ 0) (hN : env2.system ≠ "Linux") :
    pyMain env euid = (.rootError "You must run this as root!" 1, []) ∧
    pyMain env2 euid2 = pyMain env2 0 ∧
    (pyMain env2 euid2).1.isRootError = false := by
  have hn2 : ¬ (env2.system = "Linux" ∧ euid2 ≠ 0) := fun hc => hN hc.1
  have hn0 : ¬ (env2.system = "Linux" ∧ (0 : Nat) ≠ 0) := fun hc => hc.2 rfl
  refine ⟨?_, ?_, ?_⟩
  · unfold pyMain
    rw [if_pos ⟨hL, h0⟩]
  · unfold pyMain
    rw [if_neg hn2, if_neg hn0]
  · unfold pyMain
    rw [if_neg hn2]
    rcases hmw : mainWindow env2 with ⟨res, tr⟩
    cases res <;> rfl

/-- The witness environment of a Linux run. -/
def rootEnv : Env := { witnessEnv with system := "Linux" }

theorem c8_linux_root_check_witness :
    pyMain rootEnv 1 = (.rootError "You must run this as root!" 1, []) ∧
    pyMain witnessEnv 7 = pyMain witnessEnv 0 ∧
    (pyMain witnessEnv 7).1.isRootError = false :=
  c8_linux_root_check rootEnv witnessEnv 1 7 rfl (by decide) (by decide)

theorem pyInt_of_nonneg (q : ℚ) (hq : 0 ≤ q) : pyInt q = ⌊q⌋ := by
  unfold pyInt
  rw [Rat.floor_def]
  exact Int.tdiv_eq_ediv (Rat.num_nonneg.mpr hq) (Int.ofNat_nonneg q.den)

theorem memory_int_div (n : Nat) :
    pyInt (memoryProp n).magnitude = (n / 10 ^ 9 : Nat) := by
  have hmag : (memoryProp n).magnitude = (n : ℚ) / 10 ^ 9 := by
    unfold memoryProp Quantity.to gigabyteUnit byteUnit gigaFactor
    norm_num
  rw [hmag, pyInt_of_nonneg _ (by positivity)]
  rw [show ((n : ℚ) / 10 ^ 9) = ((n : ℤ) : ℚ) / ((10 ^ 9 : ℕ) : ℚ) by
    push_cast
    ring]
  rw [Rat.floor_intCast_div_natCast, Int.ofNat_tdiv]
  exact (Int.tdiv_eq_ediv (Int.ofNat_nonneg n) (by positivity)).symm

/-- C10: the window title joins, with `"   —   "`, exactly the non-`None`
entries among model, OS, processor and the memory string, in that order;
the memory entry is always present and is `"<n> GB RAM"` where `n` is the
decimal-gigabyte magnitude truncated toward zero — that is, the byte
total divided by `10^9` with the remainder dropped. -/
theorem c10_window_title (m o p : Option Str) (n : Nat) :
    windowTitle m o p n =
      List.intercalate (str "   —   ") (([m, o, p].filterMap id) ++
        [str (toString (pyInt (memoryProp n).magnitude)) ++ str " GB RAM"]) ∧
    pyInt (memoryProp n).magnitude = (n / 10 ^ 9 : Nat) := by
  constructor
  · unfold windowTitle
    cases m <;> cases o <;> cases p <;> simp
  · exact memory_int_div n

/-- `SystemInfo.memory` as a property access:
`units.bytes * psutil.virtual_memory().total` converted to gigabytes,
no external command. -/
def memoryPropE (env : Env) : Except PyErr Quantity × List Cmd :=
  (.ok (memoryProp env.totalBytes), [])

theorem osProp_trace (env : Env) :
    (osProp env).2 =
      if env.system = "Windows" then [Cmd.powershell osWindowsScript]
      else [] := by
  unfold osProp
  by_cases hw : env.system = "Windows"
  · simp only [hw, if_true]
    cases run_powershell env osWindowsScript with
    | error e => rfl
    | ok out =>
      dsimp only
      cases env.jsonEdition out <;> rfl
  · simp only [hw, if_false]
    by_cases hl : env.system = "Linux"
    · simp only [hl, if_true]
      cases osReleasePairs env.osRelease with
      | error e => rfl
      | ok d =>
        dsimp only
        cases pyDictLookup d (str "PRETTY_NAME") <;> rfl
    · simp only [hl, if_false]

theorem modelProp_trace (env : Env) :
    (modelProp env).2 =
      if env.system = "Windows" then [Cmd.powershell modelWindowsScript]
      else if env.system = "Linux" then [Cmd.command ["dmidecode", "-t1"]]
      else [] := by
  unfold modelProp
  by_cases hw : env.system = "Windows"
  · simp only [hw, if_true]
    cases run_powershell env modelWindowsScript with
    | error e => rfl
    | ok out =>
      dsimp only
      cases env.jsonCsModel out <;> rfl
  · simp only [hw, if_false]
    by_cases hl : env.system = "Linux"
    · simp only [hl, if_true]
      cases run_command env ["dmidecode", "-t1"] with
      | error e => rfl
      | ok out =>
        dsimp only
        cases dmiPairs ((partition (splitlinesPy out) fun line =>
            strContains (str "System Information") line).getLast?.getD []) with
        | error e => rfl
        | ok d =>
          dsimp only
          cases hv : pyDictLookup d (str "Version") with
          | none => rfl
          | some v => by_cases hve : v = [] <;> simp [hve]
    · simp only [hl, if_false]

theorem serialProp_trace (env : Env) :
    (serialProp env).2 =
      if env.system = "Windows" then [Cmd.powershell serialWindowsScript]
      else if env.system = "Linux" then
        [Cmd.command ["dmidecode", "-t", "system"]]
      else [] := by
  unfold serialProp
  by_cases hw : env.system = "Windows"
  · simp only [hw, if_true]
    cases run_powershell env serialWindowsScript <;> rfl
  · simp only [hw, if_false]
    by_cases hl : env.system = "Linux"
    · simp only [hl, if_true]
      cases run_command env ["dmidecode", "-t", "system"] with
      | error e => rfl
      | ok result =>
        dsimp only
        cases (splitlinesPy result).find? (fun line =>
          strContains (str "serial") (lowerStr line)) <;> rfl
    · simp only [hl, if_false]

theorem interfacesProp_trace (env : Env) :
    (interfacesProp env).2 =
      if env.system = "Windows" then [Cmd.powershell adaptersScript]
      else if env.system = "Linux" then
        [Cmd.command ["lshw", "-class", "network"]]
      else [] := by
  unfold interfacesProp
  by_cases hw : env.system = "Windows"
  · simp only [hw, if_true]
    cases run_powershell env adaptersScript with
    | error e => rfl
    | ok out =>
      dsimp only
      cases env.jsonAdapters out <;> rfl
  · simp only [hw, if_false]
    by_cases hl : env.system = "Linux"
    · simp only [hl, if_true]
      cases run_command env ["lshw", "-class", "network"] with
      | error e => rfl
      | ok result =>
        dsimp only
        cases ((((partition (splitlinesPy result) fun line =>
            strContains (str "*-network") line).filter
              fun dev => dev ≠ []).map lshwDevPairs).filter fun d =>
            match pyDictLookup d (str "logical name") with
            | some l => decide (l ∈ env.physicalInterfaces)
            | none => false).mapM lshwInterface <;> rfl
    · simp only [hl, if_false]

/-- C6: accessing a `SystemInfo` property never mutates the instance (it
has no fields) or any other program state: two accesses on the same
instance return the instance unchanged and yield equal values, and each
access appends its own fresh execution of the property's external
commands to the trace — the command lists below depend only on the
platform, so the same commands are re-run by every access, with nothing
cached and nothing persisted (`processor` and `memory` run no external
command). -/
theorem c6_no_mutation_no_caching (env : Env) (t : List Cmd)
    (info : SystemInfo) :
    accessTwice info osProp env t =
      (info, ((osProp env).1, (osProp env).1),
        t ++ (osProp env).2 ++ (osProp env).2) ∧
    accessTwice info modelProp env t =
      (info, ((modelProp env).1, (modelProp env).1),
        t ++ (modelProp env).2 ++ (modelProp env).2) ∧
    accessTwice info serialProp env t =
      (info, ((serialProp env).1, (serialProp env).1),
        t ++ (serialProp env).2 ++ (serialProp env).2) ∧
    accessTwice info interfacesProp env t =
      (info, ((interfacesProp env).1, (interfacesProp env).1),
        t ++ (interfacesProp env).2 ++ (interfacesProp env).2) ∧
    accessTwice info processorProp env t =
      (info, ((processorProp env).1, (processorProp env).1), t) ∧
    accessTwice info memoryPropE env t =
      (info, ((memoryPropE env).1, (memoryPropE env).1), t) ∧
    (osProp env).2 =
      (if env.system = "Windows" then [Cmd.powershell osWindowsScript]
       else []) ∧
    (modelProp env).2 =
      (if env.system = "Windows" then [Cmd.powershell modelWindowsScript]
       else if env.system = "Linux" then [Cmd.command ["dmidecode", "-t1"]]
       else []) ∧
    (serialProp env).2 =
      (if env.system = "Windows" then [Cmd.powershell serialWindowsScript]
       else if env.system = "Linux" then
         [Cmd.command ["dmidecode", "-t", "system"]]
       else []) ∧
    (interfacesProp env).2 =
      (if env.system = "Windows" then [Cmd.powershell adaptersScript]
       else if env.system = "Linux" then
         [Cmd.command ["lshw", "-class", "network"]]
       else []) :=
  ⟨rfl, rfl, rfl, rfl, by simp [accessTwice, processorProp],
    by simp [accessTwice, memoryPropE],
    osProp_trace env, modelProp_trace env, serialProp_trace env,
    interfacesProp_trace env⟩
